import Mathlib

/-!
Verification development for the conversational todo backend.

The Phase3 namespace embeds `src/phase-3/backend/app` (MCP tool layer,
agent loop, chat coordinator); the Phase03 namespace embeds
`src/phase-03/backend/app` (message service and chat endpoint).
Python dicts of JSON-decoded values are embedded as association lists of
`JVal`; raised Python exceptions are embedded as the `Except PyExn` error
case; the database session is embedded as an explicit `TaskStore` value
threaded through each tool, with a `dbFail` flag standing for a
persistence layer whose operations raise.
-/

/-- Stable insertion into a list sorted by descending `key`, realizing
`ORDER BY key DESC`. -/
def insertDescBy (key : α → Nat) (x : α) : List α → List α
  | [] => [x]
  | y :: ys => if key x ≤ key y then y :: insertDescBy key x ys else x :: y :: ys

/-- Sort by `key` descending (`ORDER BY ... DESC`). -/
def sortDescBy (key : α → Nat) : List α → List α
  | [] => []
  | x :: xs => insertDescBy key x (sortDescBy key xs)

/-- Stable insertion into a list sorted by ascending `key`, realizing
`ORDER BY key ASC`. -/
def insertAscBy (key : α → Nat) (x : α) : List α → List α
  | [] => [x]
  | y :: ys => if key y ≤ key x then y :: insertAscBy key x ys else x :: y :: ys

/-- Sort by `key` ascending (`ORDER BY ... ASC`). -/
def sortAscBy (key : α → Nat) : List α → List α
  | [] => []
  | x :: xs => insertAscBy key x (sortAscBy key xs)

/-- Outcome of a chat request: a successful response bound to a
conversation, or an HTTP error status. -/
inductive ChatOutcome where
  | ok (conversation_id : Nat) (response : String)
  | http (status : Nat)
deriving Repr, DecidableEq

namespace Phase3

/-- Embedding of a JSON-decoded Python value as passed in tool arguments. -/
inductive JVal where
  | s (v : String)
  | i (v : Int)
  | b (v : Bool)
  | null
deriving Repr, DecidableEq

/-- Python truthiness of a `JVal` (`if not user_id:`). -/
def JVal.truthy : JVal → Bool
  | .s v => v ≠ ""
  | .i n => n ≠ 0
  | .b v => v
  | .null => false

/-- Underlying string of a `JVal` known to be a string. -/
def JVal.asStr : JVal → String
  | .s v => v
  | _ => ""

/-- Embedding of Python `str.strip()`: drop leading and trailing whitespace.
Defined on the character list so that it reduces in the kernel
(`String.trim` does not). -/
def pyStrip (s : String) : String :=
  ⟨((s.data.dropWhile Char.isWhitespace).reverse.dropWhile Char.isWhitespace).reverse⟩

/-- Embedding of a raised Python exception escaping a function. -/
inductive PyExn where
  | typeError
  | attributeError
deriving Repr, DecidableEq

/-- Task row, from `app/models/task.py` (timestamps are modelled as ticks of
a per-store logical clock; the DB-assigned primary key is `id`). -/
structure Task where
  id : Nat
  user_id : String
  title : String
  description : Option String
  completed : Bool
  created_at : Nat
  updated_at : Nat
deriving Repr, DecidableEq

/-- The task table plus the id sequence and clock of the database, and a
`dbFail` flag standing for a session whose operations raise. -/
structure TaskStore where
  tasks : List Task
  next_id : Nat
  clock : Nat
  dbFail : Bool
deriving Repr, DecidableEq

/-- Task summary returned by `list_tasks` (T027 response format). -/
structure TaskView where
  id : Nat
  title : String
  description : Option String
  completed : Bool
  created_at : Nat
  updated_at : Nat
deriving Repr, DecidableEq

def Task.toView (t : Task) : TaskView :=
  { id := t.id, title := t.title, description := t.description,
    completed := t.completed, created_at := t.created_at, updated_at := t.updated_at }

/-- Value returned by a tool across the tool boundary: the
`success_response` object, the `list_tasks` array, or the
`error_response` object from `app/mcp/utils.py`. -/
inductive ToolResult where
  | obj (task_id : Nat) (status : String) (title : String)
  | arr (items : List TaskView)
  | err (msg : String)
deriving Repr, DecidableEq

/-- `utils.success_response`. -/
def success_response (task_id : Nat) (status : String) (title : String) : ToolResult :=
  .obj task_id status title

/-- `utils.error_response`. -/
def error_response (message : String) : ToolResult :=
  .err message

/-- `utils.validate_user_id`; `.strip()` on a truthy non-string raises. -/
def validate_user_id (user_id : JVal) : Except PyExn (Option ToolResult) :=
  if ¬ user_id.truthy then .ok (some (error_response "user_id is required"))
  else match user_id with
    | .s v =>
      if ¬ (JVal.s (pyStrip v)).truthy then .ok (some (error_response "user_id is required"))
      else .ok none
    | _ => .error .attributeError

/-- `utils.validate_title` with the default `max_length = 500`; note the
length check is on the original, untrimmed title, as in the source. -/
def validate_title (title : JVal) : Except PyExn (Option ToolResult) :=
  match title with
  | .null => .ok (some (error_response "title is required"))
  | .s v =>
    let title_stripped := pyStrip v
    if ¬ (JVal.s title_stripped).truthy then .ok (some (error_response "title cannot be empty"))
    else if v.length > 500 then
      .ok (some (error_response "title exceeds maximum length of 500 characters"))
    else .ok none
  | _ => .error .attributeError

/-- `utils.validate_task_id`: only checks for `None`. -/
def validate_task_id (task_id : JVal) : Option ToolResult :=
  if task_id = .null then some (error_response "task_id is required") else none

/-- `utils.validate_status`: `None` is valid; anything not in the closed
set is a validation error (string comparison raises nothing). -/
def validate_status (status : JVal) : Option ToolResult :=
  if status = .null then none
  else if status = .s "all" ∨ status = .s "pending" ∨ status = .s "completed" then none
  else some (error_response "status must be \x27all\x27, \x27pending\x27, or \x27completed\x27")

/-- Replace the first element satisfying `p` (the row fetched by
`.first()` and mutated in place). -/
def replaceFirst (p : Task → Bool) (t' : Task) : List Task → List Task
  | [] => []
  | t :: ts => if p t then t' :: ts else t :: replaceFirst p t' ts

/-- Remove the first element satisfying `p` (`session.delete` of the row
fetched by `.first()`). -/
def removeFirst (p : Task → Bool) : List Task → List Task
  | [] => []
  | t :: ts => if p t then ts else t :: removeFirst p ts

/-- Row predicate of the owner-scoped lookup
`.where(Task.id == task_id).where(Task.user_id == user_id)`. -/
def ownedBy (task_id : Int) (u : String) (t : Task) : Bool :=
  (t.id : Int) = task_id ∧ t.user_id = u

/-- `tools/add_task.py::add_task`.  A `description` that is neither a
string nor null fails inside the `try` at the persistence layer and is
reported as the opaque "service unavailable" error. -/
def add_task (user_id title description : JVal) (st : TaskStore) :
    Except PyExn (ToolResult × TaskStore) := do
  match ← validate_user_id user_id with
  | some err => return (err, st)
  | none =>
  match ← validate_title title with
  | some err => return (err, st)
  | none =>
  -- here both are strings: trim title whitespace
  let title' := pyStrip title.asStr
  if st.dbFail then return (error_response "service unavailable", st)
  else
    match description with
    | .null =>
      let task : Task := { id := st.next_id, user_id := user_id.asStr, title := title',
                           description := none, completed := false,
                           created_at := st.clock, updated_at := st.clock }
      return (success_response task.id "created" task.title,
              { st with tasks := st.tasks ++ [task], next_id := st.next_id + 1,
                        clock := st.clock + 1 })
    | .s d =>
      let task : Task := { id := st.next_id, user_id := user_id.asStr, title := title',
                           description := some d, completed := false,
                           created_at := st.clock, updated_at := st.clock }
      return (success_response task.id "created" task.title,
              { st with tasks := st.tasks ++ [task], next_id := st.next_id + 1,
                        clock := st.clock + 1 })
    | _ => return (error_response "service unavailable", st)

/-- The query of `list_tasks` (T023-T027): user-isolation filter, status
filter, `ORDER BY created_at DESC`, limit, response mapping. -/
def queryTasks (u : String) (status : JVal) (n : Int) (tasks : List Task) : List TaskView :=
  let base := tasks.filter (fun t => t.user_id = u)
  let filtered :=
    if status = .s "pending" then base.filter (fun t => t.completed = false)
    else if status = .s "completed" then base.filter (fun t => t.completed = true)
    else base
  ((sortDescBy Task.created_at filtered).take n.toNat).map Task.toView

/-- `tools/list_tasks.py::list_tasks`.  A string `limit` raises
`TypeError` at `limit < 1`; a non-integer `task`-typed limit never occurs.
The limit is defaulted to 100 when null, rejected below 1 and silently
clamped above 1000. -/
def list_tasks (user_id status limit : JVal) (st : TaskStore) :
    Except PyExn (ToolResult × TaskStore) := do
  match ← validate_user_id user_id with
  | some err => return (err, st)
  | none =>
  match validate_status status with
  | some err => return (err, st)
  | none =>
  match (match limit with
         | .null => Except.ok (100 : Int)        -- if limit is None: limit = 100
         | .i n => Except.ok n
         | .b v => Except.ok (if v then (1 : Int) else 0)  -- Python bool is an int
         | .s _ => Except.error PyExn.typeError) with
  | .error e => .error e
  | .ok n =>
  if n < 1 then return (error_response "limit must be at least 1", st)
  else
    let n := if n > 1000 then 1000 else n
    if st.dbFail then return (error_response "service unavailable", st)
    else
      return (.arr (queryTasks user_id.asStr status n st.tasks), st)

/-- `tools/complete_task.py::complete_task`: toggles the completion flag
of the owner-scoped row, or reports "task not found".  A `task_id` of a
non-integer type fails inside the `try` at the persistence layer. -/
def complete_task (user_id task_id : JVal) (st : TaskStore) :
    Except PyExn (ToolResult × TaskStore) := do
  match ← validate_user_id user_id with
  | some err => return (err, st)
  | none =>
  match validate_task_id task_id with
  | some err => return (err, st)
  | none =>
  if st.dbFail then return (error_response "service unavailable", st)
  else
    match (match task_id with
           | .i n => some n
           | .b v => some (if v then (1 : Int) else 0)
           | _ => none) with
    | none => return (error_response "service unavailable", st)
    | some n =>
      match st.tasks.find? (ownedBy n user_id.asStr) with
      | none => return (error_response "task not found", st)
      | some task =>
        let task' := { task with completed := !task.completed, updated_at := st.clock }
        let status := if task'.completed then "completed" else "incomplete"
        return (success_response task'.id status task'.title,
                { st with tasks := replaceFirst (ownedBy n user_id.asStr) task' st.tasks,
                          clock := st.clock + 1 })

/-- `tools/update_task.py::update_task`: partial update of title and/or
description, requiring at least one of the two. -/
def update_task (user_id task_id title description : JVal) (st : TaskStore) :
    Except PyExn (ToolResult × TaskStore) := do
  match ← validate_user_id user_id with
  | some err => return (err, st)
  | none =>
  match validate_task_id task_id with
  | some err => return (err, st)
  | none =>
  if title = .null ∧ description = .null then
    return (error_response "at least one of title or description must be provided", st)
  else
  match ← (if title ≠ .null then validate_title title else .ok none) with
  | some err => return (err, st)
  | none =>
  let title' : Option String := if title = .null then none else some (pyStrip title.asStr)
  if st.dbFail then return (error_response "service unavailable", st)
  else
    match (match task_id with
           | .i n => some n
           | .b v => some (if v then (1 : Int) else 0)
           | _ => none) with
    | none => return (error_response "service unavailable", st)
    | some n =>
      match st.tasks.find? (ownedBy n user_id.asStr) with
      | none => return (error_response "task not found", st)
      | some task =>
        match (match description with
               | .null => some task.description
               | .s d => some (some d)
               | _ => none) with
        | none => return (error_response "service unavailable", st)
        | some desc' =>
          let task' := { task with title := title'.getD task.title,
                                   description := desc', updated_at := st.clock }
          return (success_response task'.id "updated" task'.title,
                  { st with tasks := replaceFirst (ownedBy n user_id.asStr) task' st.tasks,
                            clock := st.clock + 1 })

/-- `tools/delete_task.py::delete_task`: hard delete of the owner-scoped
row; a second call finds nothing and reports "task not found". -/
def delete_task (user_id task_id : JVal) (st : TaskStore) :
    Except PyExn (ToolResult × TaskStore) := do
  match ← validate_user_id user_id with
  | some err => return (err, st)
  | none =>
  match validate_task_id task_id with
  | some err => return (err, st)
  | none =>
  if st.dbFail then return (error_response "service unavailable", st)
  else
    match (match task_id with
           | .i n => some n
           | .b v => some (if v then (1 : Int) else 0)
           | _ => none) with
    | none => return (error_response "service unavailable", st)
    | some n =>
      match st.tasks.find? (ownedBy n user_id.asStr) with
      | none => return (error_response "task not found", st)
      | some task =>
        return (success_response task.id "deleted" task.title,
                { st with tasks := removeFirst (ownedBy n user_id.asStr) st.tasks })

/-! Agent service, from `app/services/ai_agent.py`. -/

/-- Python dict assignment `args["user_id"] = user_id`: overwrite the key
if present, otherwise add it. -/
def setKey : List (String × JVal) → String → JVal → List (String × JVal)
  | [], k, v => [(k, v)]
  | (k', v') :: rest, k, v =>
    if k' = k then (k, v) :: rest else (k', v') :: setKey rest k v

/-- One function entry of the tool schema array handed to the model
provider (`AIAgentService.tools`): the function name, its parameter names
and its required-parameter list, from `ai_agent.py` lines 98-200. -/
structure ToolFunctionSchema where
  name : String
  parameters : List String
  required : List String
deriving Repr, DecidableEq

/-- `AIAgentService.tools`, the schema array given to the provider. -/
def tools : List ToolFunctionSchema :=
  [ { name := "add_task", parameters := ["title", "description"], required := ["title"] },
    { name := "list_tasks", parameters := ["status", "limit"], required := [] },
    { name := "complete_task", parameters := ["task_id"], required := ["task_id"] },
    { name := "update_task", parameters := ["task_id", "title", "description"],
      required := ["task_id", "title"] },
    { name := "delete_task", parameters := ["task_id"], required := ["task_id"] } ]

/-- One tool call requested by the model: opaque call id, function name
and the JSON-decoded argument object (`json.loads(tc.function.arguments)`;
a provider-produced argument string decodes to such an object). -/
structure ToolCallReq where
  id : String
  name : String
  arguments : List (String × JVal)
deriving Repr, DecidableEq

/-- The model reply used by the loop: `response.choices[0].message`. -/
structure AssistantMessage where
  content : Option String
  tool_calls : List ToolCallReq
deriving Repr, DecidableEq

/-- A message of the prompt array built by the loop. -/
inductive PMsg where
  | system (content : String)
  | user (content : String)
  | assistant (content : Option String) (tool_calls : List ToolCallReq)
  | tool (tool_call_id : String) (content : String)
deriving Repr, DecidableEq

/-- `AIAgentService._invoke_tool`: inject the authenticated `user_id` into
the argument dict (overwriting any model-supplied value) and dispatch by
tool name with Python keyword-argument binding: an unexpected keyword or a
missing required keyword raises `TypeError` before the tool body runs. -/
def invokeTool (tool_name : String) (user_id : String) (args : List (String × JVal))
    (st : TaskStore) : Except PyExn (ToolResult × TaskStore) :=
  let args := setKey args "user_id" (.s user_id)
  if tool_name = "add_task" then
    if args.all (fun kv => kv.1 = "user_id" ∨ kv.1 = "title" ∨ kv.1 = "description") then
      match List.lookup "title" args with
      | none => .error .typeError
      | some title =>
        add_task ((List.lookup "user_id" args).getD .null) title
          ((List.lookup "description" args).getD .null) st
    else .error .typeError
  else if tool_name = "list_tasks" then
    if args.all (fun kv => kv.1 = "user_id" ∨ kv.1 = "status" ∨ kv.1 = "limit") then
      list_tasks ((List.lookup "user_id" args).getD .null)
        ((List.lookup "status" args).getD (.s "all"))
        ((List.lookup "limit" args).getD (.i 100)) st
    else .error .typeError
  else if tool_name = "complete_task" then
    if args.all (fun kv => kv.1 = "user_id" ∨ kv.1 = "task_id") then
      match List.lookup "task_id" args with
      | none => .error .typeError
      | some task_id => complete_task ((List.lookup "user_id" args).getD .null) task_id st
    else .error .typeError
  else if tool_name = "update_task" then
    if args.all (fun kv =>
        kv.1 = "user_id" ∨ kv.1 = "task_id" ∨ kv.1 = "title" ∨ kv.1 = "description") then
      match List.lookup "task_id" args with
      | none => .error .typeError
      | some task_id =>
        update_task ((List.lookup "user_id" args).getD .null) task_id
          ((List.lookup "title" args).getD .null)
          ((List.lookup "description" args).getD .null) st
    else .error .typeError
  else if tool_name = "delete_task" then
    if args.all (fun kv => kv.1 = "user_id" ∨ kv.1 = "task_id") then
      match List.lookup "task_id" args with
      | none => .error .typeError
      | some task_id => delete_task ((List.lookup "user_id" args).getD .null) task_id st
    else .error .typeError
  else .ok (.err ("Unknown tool: " ++ tool_name), st)

/-- Shallow rendering of a string as a JSON literal (escaping elided). -/
def jsonStr (s : String) : String := "\"" ++ s ++ "\""

/-- Shallow rendering of a task summary, as in the `list_tasks` response. -/
def jsonOfView (v : TaskView) : String :=
  "\x7b\"id\": " ++ toString v.id ++ ", \"title\": " ++ jsonStr v.title ++
    ", \"description\": " ++ (match v.description with
                              | some d => jsonStr d
                              | none => "null") ++
    ", \"completed\": " ++ (if v.completed then "true" else "false") ++
    ", \"created_at\": " ++ toString v.created_at ++
    ", \"updated_at\": " ++ toString v.updated_at ++ "\x7d"

/-- `json.dumps(tool_result)` for the tool-role message content. -/
def jsonOfResult : ToolResult → String
  | .obj task_id status title =>
    "\x7b\"task_id\": " ++ toString task_id ++ ", \"status\": " ++ jsonStr status ++
      ", \"title\": " ++ jsonStr title ++ "\x7d"
  | .arr items => "[" ++ String.intercalate ", " (items.map jsonOfView) ++ "]"
  | .err msg => "\x7b\"error\": " ++ jsonStr msg ++ "\x7d"

/-- `AIAgentService.system_prompt`. -/
def system_prompt : String :=
  "You are a helpful task management assistant. You have access to functions that can manage tasks. " ++
  "Use these functions to help users with their tasks." ++
  "\n\nWhen a user refers to a task by its title or description (not by ID number):" ++
  "\n1. First, call list_tasks() to see all available tasks" ++
  "\n2. Find the task that matches what the user described" ++
  "\n3. Use the task\x27s ID to call the appropriate function" ++
  "\n\nExamples:" ++
  "\n- User: \x27Mark the milk task as complete\x27 → Call list_tasks(), find \x27Buy milk\x27 task, then call complete_task with its ID" ++
  "\n- User: \x27Delete my grocery task\x27 → Call list_tasks(), find the grocery task, then call delete_task with its ID" ++
  "\n- User: \x27Update the prayer task title to Morning prayer\x27 → Call list_tasks(), find the prayer task, then call update_task with its ID" ++
  "\n\nAlways use the functions to perform actions. After calling a function, tell the user what was done based on the result."

/-- The `for tool_call in assistant_message.tool_calls` body: invoke each
requested tool in order (an escaping exception aborts the whole request)
and append the serialized result as a tool-role message. -/
def execToolCalls (user_id : String) :
    List ToolCallReq → List PMsg → TaskStore → Except PyExn (List PMsg × TaskStore)
  | [], msgs, st => .ok (msgs, st)
  | tc :: rest, msgs, st => do
    let (tool_result, st') ← invokeTool tc.name user_id tc.arguments st
    execToolCalls user_id rest (msgs ++ [.tool tc.id (jsonOfResult tool_result)]) st'

/-- State of `generate_response` when the `while` loop exits: the last
assistant message, whether the loop exited through the no-tool-calls
`break`, the iteration counter, the prompt array and the store. -/
structure LoopOut where
  last : Option AssistantMessage
  broke : Bool
  iteration : Nat
  messages : List PMsg
  store : TaskStore

/-- The `while iteration < max_iterations` loop of
`AIAgentService.generate_response`, with `fuel = max_iterations - iteration`
as the decreasing measure.  The model provider is a `stub` function from
the prompt array to a reply. -/
def agentIter (stub : List PMsg → AssistantMessage) (user_id : String) :
    Nat → List PMsg → TaskStore → Nat → Option AssistantMessage → Except PyExn LoopOut
  | 0, msgs, st, iteration, last => .ok ⟨last, false, iteration, msgs, st⟩
  | fuel + 1, msgs, st, iteration, _ => do
    let iteration := iteration + 1
    let reply := stub msgs
    if reply.tool_calls.isEmpty then
      .ok ⟨some reply, true, iteration, msgs, st⟩
    else
      let msgs := msgs ++ [.assistant reply.content reply.tool_calls]
      let (msgs', st') ← execToolCalls user_id reply.tool_calls msgs st
      agentIter stub user_id fuel msgs' st' iteration (some reply)

/-- The iteration ceiling (`max_iterations = 5`). -/
def max_iterations : Nat := 5

/-- The generic completion message returned when the ceiling is hit with
no textual content available. -/
def generic_completion_message : String := "I\x27ve completed the requested actions."

/-- Python truthiness of `assistant_message.content` (None or "" falsy). -/
def pyTruthyOpt : Option String → Bool
  | some s => s ≠ ""
  | none => false

/-- `AIAgentService.generate_response`: prepend the system prompt, run the
agentic loop and post-process: on a `break` the reply content (possibly
None) is the response; if the iteration ceiling was reached the response
is the last content if truthy, else the generic completion message.
Also returns the final store and the number of model round-trips made. -/
def generate_response (stub : List PMsg → AssistantMessage) (user_id : String)
    (conversation_history : List PMsg) (st : TaskStore) :
    Except PyExn (Option String × TaskStore × Nat) := do
  let messages := PMsg.system system_prompt :: conversation_history
  let out ← agentIter stub user_id max_iterations messages st 0 none
  let response_content : Option String :=
    if out.broke then (match out.last with | some m => m.content | none => none) else none
  let response_content :=
    if out.iteration ≥ max_iterations then
      match out.last with
      | some m =>
        some (if pyTruthyOpt m.content then m.content.getD "" else generic_completion_message)
      | none => response_content
    else response_content
  return (response_content, out.store, out.iteration)

/-! Chat endpoint coordinator, from `app/routes/chat.py` (phase-3). -/

/-- Conversation row (`app/models/conversation.py`). -/
structure Conversation where
  id : Nat
  user_id : String
deriving Repr, DecidableEq

/-- Message row (`app/models/message.py`); the role is `"user"` or
`"assistant"`. -/
structure CMsg where
  id : Nat
  conversation_id : Nat
  role : String
  content : String
  created_at : Nat
deriving Repr, DecidableEq

/-- The conversation/message side of the database. -/
structure ChatDB where
  conversations : List Conversation
  messages : List CMsg
  next_conv_id : Nat
  next_msg_id : Nat
  clock : Nat
deriving Repr, DecidableEq

/-- `routes/chat.py::send_chat_message`.  The whole round runs in one
explicit transaction: the conversation row and the user message are only
flushed, so the rollback performed when the agent raises restores the
database to its pre-request state; on success everything is committed at
once.  The agent loop is abstracted as a function from the built history
to either a response or a raised exception. -/
def send_chat_message (db : ChatDB) (user_id message : String)
    (conversation_id : Option Nat)
    (agent : List (String × String) → Except Unit String) : ChatOutcome × ChatDB :=
  let message_content := pyStrip message
  if message_content = "" then (.http 422, db)
  else
    -- session.begin(): work below is buffered; rollback returns `db`
    let resolved : Nat × ChatDB :=
      match conversation_id with
      | some cid =>
        match db.conversations.find? (fun c => c.id = cid ∧ c.user_id = user_id) with
        | some c => (c.id, db)
        | none =>
          (db.next_conv_id,
           { db with conversations := db.conversations ++ [⟨db.next_conv_id, user_id⟩],
                     next_conv_id := db.next_conv_id + 1 })
      | none =>
        (db.next_conv_id,
         { db with conversations := db.conversations ++ [⟨db.next_conv_id, user_id⟩],
                   next_conv_id := db.next_conv_id + 1 })
    let conv_id := resolved.1
    let db1 := resolved.2
    let user_message : CMsg :=
      ⟨db1.next_msg_id, conv_id, "user", message_content, db1.clock⟩
    let db2 := { db1 with messages := db1.messages ++ [user_message],
                          next_msg_id := db1.next_msg_id + 1, clock := db1.clock + 1 }
    let loaded :=
      (sortAscBy CMsg.created_at
        (db2.messages.filter (fun m => m.conversation_id = conv_id))).take 50
    let conversation_history :=
      ((loaded.filter (fun m => m.id ≠ user_message.id)).map (fun m => (m.role, m.content)))
        ++ [("user", message_content)]
    match agent conversation_history with
    | .error _ => (.http 503, db)
    | .ok ai_response =>
      let assistant_message : CMsg :=
        ⟨db2.next_msg_id, conv_id, "assistant", ai_response, db2.clock⟩
      (.ok conv_id ai_response,
       { db2 with messages := db2.messages ++ [assistant_message],
                  next_msg_id := db2.next_msg_id + 1, clock := db2.clock + 1 })

end Phase3

namespace Phase03

/-- Conversation row (`app/models/conversation.py`, phase-03); the opaque
UUID is modelled as a store-assigned number. -/
structure Conversation where
  id : Nat
  user_id : String
deriving Repr, DecidableEq

/-- Message row (`app/models/message.py`, phase-03). -/
structure Message where
  id : Nat
  conversation_id : Nat
  role : String
  content : String
  created_at : Nat
deriving Repr, DecidableEq

/-- The conversation/message side of the phase-03 database. -/
structure ChatDB where
  conversations : List Conversation
  messages : List Message
  next_conv_id : Nat
  next_msg_id : Nat
  clock : Nat
deriving Repr, DecidableEq

/-- `services/message_service.py::store_message`: append-only insert,
committed immediately. -/
def store_message (db : ChatDB) (conversation_id : Nat) (role content : String) :
    Message × ChatDB :=
  let message : Message := ⟨db.next_msg_id, conversation_id, role, content, db.clock⟩
  (message,
   { db with messages := db.messages ++ [message],
             next_msg_id := db.next_msg_id + 1, clock := db.clock + 1 })

/-- The `for msg in messages` loop of `load_conversation_history`: walk
the messages newest first, stop at the first message that would push the
running token total over the limit, and prepend kept messages so the
result is oldest first. -/
def histLoop (tok : String → Nat) (max_tokens : Nat) :
    List Message → List (String × String) → Nat → List (String × String)
  | [], result, _ => result
  | msg :: rest, result, total_tokens =>
    let msg_tokens := tok msg.content
    if total_tokens + msg_tokens > max_tokens then result
    else histLoop tok max_tokens rest ((msg.role, msg.content) :: result)
           (total_tokens + msg_tokens)

/-- `services/message_service.py::load_conversation_history`: load the
messages of the conversation newest first and keep a prefix within
`max_tokens`; the tiktoken token counter is abstracted as `tok`. -/
def load_conversation_history (db : ChatDB) (conversation_id : Nat)
    (tok : String → Nat) (max_tokens : Nat) : List (String × String) :=
  let messages :=
    sortDescBy Message.created_at
      (db.messages.filter (fun m => m.conversation_id = conversation_id))
  histLoop tok max_tokens messages [] 0

/-- The fall-through tail of `get_or_create_conversation`: reuse the
single conversation of the user or create and commit a fresh one. -/
def getOrCreateByUser (db : ChatDB) (user_id : String) : Conversation × ChatDB :=
  match db.conversations.find? (fun c => c.user_id = user_id) with
  | some conversation => (conversation, db)
  | none =>
    let conversation : Conversation := ⟨db.next_conv_id, user_id⟩
    (conversation,
     { db with conversations := db.conversations ++ [conversation],
               next_conv_id := db.next_conv_id + 1 })

/-- `services/conversation_service.py::get_or_create_conversation`: a
supplied id that resolves to a conversation of another user raises
`ValueError` (the `.error` case); a supplied id that resolves to nothing
falls through to get-or-create. -/
def get_or_create_conversation (db : ChatDB) (user_id : String)
    (conversation_id : Option Nat) : Except Unit (Conversation × ChatDB) :=
  match conversation_id with
  | some cid =>
    match db.conversations.find? (fun c => c.id = cid) with
    | some conversation =>
      if conversation.user_id = user_id then .ok (conversation, db)
      else .error ()
    | none => .ok (getOrCreateByUser db user_id)
  | none => .ok (getOrCreateByUser db user_id)

/-- Exception classes distinguished by `routes/chat.py::chat_endpoint`:
`GeminiAPIError`, an exception whose text mentions tools (re-raised as
`MCPToolError`), or anything else. -/
inductive AgentExn where
  | gemini
  | toolish
  | other
deriving Repr, DecidableEq

/-- `routes/chat.py::chat_endpoint` (phase-03): get-or-create the
conversation (403 on an ownership mismatch), load bounded history, store
the user message (committed), invoke the agent, store the assistant
message.  A `GeminiAPIError` maps to 503, tool failures and anything else
to 500 — in every failure case the already-committed user message stays. -/
def chat_endpoint (db : ChatDB) (user_id message : String)
    (conversation_id : Option Nat) (tok : String → Nat)
    (agent : List (String × String) → String → Except AgentExn String) :
    ChatOutcome × ChatDB :=
  if message.length > 10000 then (.http 422, db)
  else
    match get_or_create_conversation db user_id conversation_id with
    | .error _ => (.http 403, db)
    | .ok (conversation, db1) =>
      let history := load_conversation_history db1 conversation.id tok 2000
      let stored := store_message db1 conversation.id "user" message
      let db2 := stored.2
      match agent history message with
      | .error .gemini => (.http 503, db2)
      | .error .toolish => (.http 500, db2)
      | .error .other => (.http 500, db2)
      | .ok agent_content =>
        let stored' := store_message db2 conversation.id "assistant" agent_content
        (.ok conversation.id agent_content, stored'.2)

end Phase03

namespace Phase3

/-- Store well-formedness maintained by the persistence layer: primary
keys and creation timestamps are strictly increasing in insertion order
and bounded by the id sequence and the clock. -/
def TaskStore.wf (st : TaskStore) : Prop :=
  st.tasks.Pairwise (fun a b => a.id < b.id ∧ a.created_at < b.created_at) ∧
  ∀ t ∈ st.tasks, t.id < st.next_id ∧ t.created_at < st.clock

/-- The store transformation of one `complete_task` call (identity when
the call raises), used to state iterated composition. -/
def completeStep (u : String) (n : Int) (st : TaskStore) : TaskStore :=
  match complete_task (.s u) (.i n) st with
  | .ok r => r.2
  | .error _ => st

/-- Argument values on which `str.strip()`-style validation cannot raise. -/
def isStrOrNull : JVal → Bool
  | .s _ => true
  | .null => true
  | _ => false

/-- Argument values that are Python strings. -/
def isStrVal : JVal → Bool
  | .s _ => true
  | _ => false

/-- Argument objects that bind to the named tool without raising: no
unexpected keyword, required keywords present, and values of the shapes
the tool schema declares (`title` a string or null, `limit` not a
string); any other name falls into the total unknown-tool branch. -/
def wellShapedArgs (name : String) (args : List (String × JVal)) : Bool :=
  if name = "add_task" then
    (args.all (fun kv => kv.1 = "user_id" ∨ kv.1 = "title" ∨ kv.1 = "description")) &&
    (match List.lookup "title" args with
     | some v => isStrOrNull v
     | none => false)
  else if name = "list_tasks" then
    (args.all (fun kv => kv.1 = "user_id" ∨ kv.1 = "status" ∨ kv.1 = "limit")) &&
    (match List.lookup "limit" args with
     | some v => !isStrVal v
     | none => true)
  else if name = "complete_task" then
    (args.all (fun kv => kv.1 = "user_id" ∨ kv.1 = "task_id")) &&
    (List.lookup "task_id" args).isSome
  else if name = "update_task" then
    (args.all (fun kv =>
        kv.1 = "user_id" ∨ kv.1 = "task_id" ∨ kv.1 = "title" ∨ kv.1 = "description")) &&
    ((List.lookup "task_id" args).isSome &&
     (match List.lookup "title" args with
      | some v => isStrOrNull v
      | none => true))
  else if name = "delete_task" then
    (args.all (fun kv => kv.1 = "user_id" ∨ kv.1 = "task_id")) &&
    (List.lookup "task_id" args).isSome
  else true

/-- An empty task store. -/
def emptyStore : TaskStore := { tasks := [], next_id := 1, clock := 0, dbFail := false }

/-- A store holding one task of owner `alice`. -/
def sampleStore : TaskStore :=
  { tasks := [{ id := 1, user_id := "alice", title := "Buy milk", description := none,
                completed := false, created_at := 0, updated_at := 0 }],
    next_id := 2, clock := 1, dbFail := false }

/-- A model stub that always requests one call to a nonexistent tool. -/
def stubUnknownTool : List PMsg → AssistantMessage :=
  fun _ => { content := none, tool_calls := [⟨"call-1", "do_nothing", []⟩] }

/-- A model stub that always requests an `add_task` call whose `title`
argument is a number, on which the title validation raises. -/
def stubBadArgs : List PMsg → AssistantMessage :=
  fun _ => { content := some "hi", tool_calls := [⟨"call-1", "add_task", [("title", .i 5)]⟩] }

/-- An empty conversation/message database (phase-3). -/
def emptyChatDB : ChatDB :=
  { conversations := [], messages := [], next_conv_id := 1, next_msg_id := 1, clock := 0 }

end Phase3

namespace Phase03

/-- Cumulative size of a loaded history under the token metric `tok`. -/
def tokSum (tok : String → Nat) (l : List (String × String)) : Nat :=
  (l.map (fun p => tok p.2)).sum

/-- A database holding one conversation of `alice` with one three-token
message (under the length metric). -/
def sampleDB : ChatDB :=
  { conversations := [⟨1, "alice"⟩],
    messages := [⟨1, 1, "user", "aaa", 0⟩],
    next_conv_id := 2, next_msg_id := 2, clock := 1 }

/-- An empty conversation/message database (phase-03). -/
def emptyChatDB : ChatDB :=
  { conversations := [], messages := [], next_conv_id := 1, next_msg_id := 1, clock := 0 }

end Phase03

/-! Theorems. -/

lemma except_bind_ok {ε α β : Type} (a : α) (f : α → Except ε β) :
    (Except.ok a : Except ε α) >>= f = f a := rfl

/-- C9: in the tool schema array handed to the model provider, the
`update_task` entry lists both `task_id` and `title` as required — not
`task_id` alone — so `title` is not optional there, contradicting the
partial-update contract of the `update_task` tool itself. -/
theorem update_task_schema_requires_title :
    (Phase3.tools.find? (fun t => t.name = "update_task")).map
        Phase3.ToolFunctionSchema.required = some ["task_id", "title"] ∧
    (Phase3.tools.find? (fun t => t.name = "update_task")).map
        Phase3.ToolFunctionSchema.required ≠ some ["task_id"] := by
  exact ⟨rfl, by decide⟩

lemma histLoop_tokSum_le (tok : String → Nat) (budget : Nat) :
    ∀ (msgs : List Phase03.Message) (result : List (String × String)) (total : Nat),
      Phase03.tokSum tok result = total → total ≤ budget →
      Phase03.tokSum tok (Phase03.histLoop tok budget msgs result total) ≤ budget := by
  intro msgs
  induction msgs with
  | nil => intro result total h1 h2; simpa [Phase03.histLoop, h1] using h2
  | cons m rest ih =>
    intro result total h1 h2
    by_cases hc : total + tok m.content > budget
    · simpa [Phase03.histLoop, hc, h1] using h2
    · simp only [Phase03.histLoop, hc, if_neg, ite_false]
      refine ih _ _ ?_ ?_
      · simp only [Phase03.tokSum, List.map_cons, List.sum_cons] at h1 ⊢
        omega
      · omega

lemma histLoop_shape (tok : String → Nat) (budget : Nat) :
    ∀ (msgs : List Phase03.Message) (result : List (String × String)) (total : Nat),
      ∃ k, Phase03.histLoop tok budget msgs result total =
        ((msgs.take k).map (fun m => (m.role, m.content))).reverse ++ result := by
  intro msgs
  induction msgs with
  | nil => intro r t; exact ⟨0, by simp [Phase03.histLoop]⟩
  | cons m rest ih =>
    intro r t
    by_cases hc : t + tok m.content > budget
    · exact ⟨0, by simp [Phase03.histLoop, hc]⟩
    · obtain ⟨k, hk⟩ := ih ((m.role, m.content) :: r) (t + tok m.content)
      refine ⟨k + 1, ?_⟩
      simp [Phase03.histLoop, hc, hk, List.take_succ_cons]

/-- C4 (amended): the history loader returns messages oldest-first,
selecting a run of the most recent messages of the conversation whose
cumulative size never exceeds the budget — with no exception: a newest
message that alone exceeds the budget is excluded (leaving an empty
history when it is the only candidate), not included. -/
theorem load_bounded_history_spec (db : Phase03.ChatDB) (conversation_id : Nat)
    (tok : String → Nat) (max_tokens : Nat) :
    Phase03.tokSum tok
        (Phase03.load_conversation_history db conversation_id tok max_tokens) ≤ max_tokens ∧
    ∃ k, Phase03.load_conversation_history db conversation_id tok max_tokens =
      (((sortDescBy Phase03.Message.created_at
            (db.messages.filter (fun m => m.conversation_id = conversation_id))).take k).map
          (fun m => (m.role, m.content))).reverse := by
  constructor
  · exact histLoop_tokSum_le tok max_tokens _ _ _ rfl (Nat.zero_le _)
  · obtain ⟨k, hk⟩ := histLoop_shape tok max_tokens
      (sortDescBy Phase03.Message.created_at
        (db.messages.filter (fun m => m.conversation_id = conversation_id))) [] 0
    exact ⟨k, by simpa [Phase03.load_conversation_history] using hk⟩

/-- C4 (counterexample): in a conversation whose single (hence newest)
message is three tokens long under the length metric, loading with budget
two returns the empty history — the message is not included, although it
alone exceeds the budget. -/
theorem load_bounded_overbudget_newest_dropped :
    Phase03.load_conversation_history Phase03.sampleDB 1 String.length 2 = [] ∧
    2 < String.length "aaa" ∧
    ("user", "aaa") ∉ Phase03.load_conversation_history Phase03.sampleDB 1 String.length 2 := by
  refine ⟨rfl, by decide, by decide⟩

/-- C3 (counterexample): in the phase-3 coordinator, when the agent loop
raises, the rollback covers the whole transaction: on an empty database
the request answers 503 but the database is returned unchanged — the
message of the user is not persisted, contrary to the claim. -/
theorem chat_rollback_loses_user_message :
    Phase3.send_chat_message Phase3.emptyChatDB "alice" "hi" none (fun _ => .error ()) =
      (.http 503, Phase3.emptyChatDB) ∧
    Phase3.emptyChatDB.messages = [] := ⟨rfl, rfl⟩

/-- C3 (amended): when the agent loop raises, both coordinators answer
with the service-unavailable signal 503 and write no assistant message
for the round; but only the phase-03 coordinator keeps the committed user
message — the phase-3 coordinator rolls the whole transaction back, so
there the user message does not survive either. -/
theorem chat_provider_failure_atomicity
    (db : Phase3.ChatDB) (db03 db03' : Phase03.ChatDB)
    (uid msg : String) (cid cid03 : Option Nat) (tok : String → Nat)
    (agent : List (String × String) → Except Unit String)
    (agent03 : List (String × String) → String → Except Phase03.AgentExn String)
    (conv : Phase03.Conversation)
    (hmsg : Phase3.pyStrip msg ≠ "")
    (hfail : ∀ h, agent h = .error ())
    (hlen : msg.length ≤ 10000)
    (hconv : Phase03.get_or_create_conversation db03 uid cid03 = .ok (conv, db03'))
    (hfail03 : ∀ h m, agent03 h m = .error .gemini) :
    Phase3.send_chat_message db uid msg cid agent = (.http 503, db) ∧
    Phase03.chat_endpoint db03 uid msg cid03 tok agent03 =
      (.http 503, (Phase03.store_message db03' conv.id "user" msg).2) ∧
    (Phase03.store_message db03' conv.id "user" msg).2.messages =
      db03'.messages ++ [⟨db03'.next_msg_id, conv.id, "user", msg, db03'.clock⟩] := by
  refine ⟨?_, ?_, rfl⟩
  · simp only [Phase3.send_chat_message, hmsg, if_neg, ite_false, hfail]
  · have hlen' : ¬ (msg.length > 10000) := by omega
    simp only [Phase03.chat_endpoint, hlen', ite_false, hconv, hfail03]

/-- C3 (witness): the amended statement at a concrete empty database for
each coordinator, with constantly failing agents. -/
theorem chat_provider_failure_atomicity_check :
    Phase3.send_chat_message Phase3.emptyChatDB "alice" "hi" none (fun _ => .error ()) =
      (.http 503, Phase3.emptyChatDB) ∧
    (Phase03.store_message
        { conversations := [⟨1, "alice"⟩], messages := [], next_conv_id := 2,
          next_msg_id := 1, clock := 0 } 1 "user" "hi").2.messages =
      [⟨1, 1, "user", "hi", 0⟩] := by
  have h := chat_provider_failure_atomicity Phase3.emptyChatDB Phase03.emptyChatDB
    { conversations := [⟨1, "alice"⟩], messages := [], next_conv_id := 2,
      next_msg_id := 1, clock := 0 }
    "alice" "hi" none none String.length
    (fun _ => .error ()) (fun _ _ => .error .gemini) ⟨1, "alice"⟩
    (by decide) (fun _ => rfl) (by decide) rfl (fun _ _ => rfl)
  exact ⟨h.1, h.2.2⟩

lemma except_pure {E A : Type} (a : A) : (pure a : Except E A) = .ok a := rfl

/-- C10: `list_tasks` treats a missing or null limit as 100, rejects a
limit below one with the error object, silently clamps a limit above
1000 down to 1000 instead of reporting a validation error, and — the
asymmetry — rejects an invalid status value with a validation error. -/
theorem list_tasks_limit_rules (u : String) (status : Phase3.JVal) (st : Phase3.TaskStore)
    (hu : Phase3.validate_user_id (.s u) = .ok none) :
    (Phase3.list_tasks (.s u) status .null st = Phase3.list_tasks (.s u) status (.i 100) st) ∧
    (Phase3.invokeTool "list_tasks" u [] st =
        Phase3.list_tasks (.s u) (.s "all") (.i 100) st) ∧
    (∀ n : Int, n < 1 → Phase3.list_tasks (.s u) (.s "all") (.i n) st =
        .ok (Phase3.error_response "limit must be at least 1", st)) ∧
    (∀ n : Int, 1000 < n → Phase3.list_tasks (.s u) (.s "all") (.i n) st =
        Phase3.list_tasks (.s u) (.s "all") (.i 1000) st) ∧
    (Phase3.list_tasks (.s u) (.s "bogus") (.i 100) st =
        .ok (Phase3.error_response
              "status must be \x27all\x27, \x27pending\x27, or \x27completed\x27", st)) := by
  refine ⟨?_, rfl, ?_, ?_, ?_⟩
  · cases hvs : Phase3.validate_status status with
    | some e => simp [Phase3.list_tasks, hu, hvs, except_bind_ok, except_pure]
    | none => simp [Phase3.list_tasks, hu, hvs, except_bind_ok, except_pure]
  · intro n hn
    simp [Phase3.list_tasks, hu, Phase3.validate_status, hn, except_bind_ok, except_pure]
  · intro n hn
    have h1 : ¬ (n < 1) := by omega
    simp [Phase3.list_tasks, hu, Phase3.validate_status, h1, hn, except_bind_ok, except_pure]
  · simp [Phase3.list_tasks, hu, Phase3.validate_status, except_bind_ok, except_pure]

/-- C10 (witness): the limit rules at a concrete owner and store. -/
theorem list_tasks_limit_rules_check :
    Phase3.list_tasks (.s "u1") (.s "all") .null Phase3.emptyStore =
      Phase3.list_tasks (.s "u1") (.s "all") (.i 100) Phase3.emptyStore ∧
    Phase3.list_tasks (.s "u1") (.s "all") (.i 0) Phase3.emptyStore =
      .ok (Phase3.error_response "limit must be at least 1", Phase3.emptyStore) := by
  have h := list_tasks_limit_rules "u1" (.s "all") Phase3.emptyStore rfl
  exact ⟨h.1, h.2.2.1 0 (by decide)⟩
namespace Phase3

lemma ownedBy_update (n : Int) (u : String) (t : Task) (c : Bool) (x : Nat)
    (h : ownedBy n u t = true) :
    ownedBy n u { t with completed := c, updated_at := x } = true := by
  simpa [ownedBy] using h

lemma find?_replaceFirst (p : Task → Bool) (t' : Task) (l : List Task) (t : Task)
    (hf : l.find? p = some t) (hp : p t' = true) :
    (replaceFirst p t' l).find? p = some t' := by
  induction l with
  | nil => simp [List.find?] at hf
  | cons hd tl ih =>
    by_cases h : p hd
    · simp [replaceFirst, h, List.find?_cons_of_pos, hp]
    · rw [List.find?_cons_of_neg _ h] at hf
      simp [replaceFirst, h, List.find?_cons_of_neg, ih hf]

lemma complete_task_found (u : String) (n : Int) (st : TaskStore) (t : Task)
    (hu : validate_user_id (.s u) = .ok none)
    (hdb : st.dbFail = false)
    (hf : st.tasks.find? (ownedBy n u) = some t) :
    complete_task (.s u) (.i n) st =
      .ok (.obj t.id (if t.completed then "incomplete" else "completed") t.title,
           { st with
               tasks := replaceFirst (ownedBy n u)
                 { t with completed := !t.completed, updated_at := st.clock } st.tasks,
               clock := st.clock + 1 }) := by
  simp only [complete_task, hu, except_bind_ok, validate_task_id, hdb]
  simp [JVal.asStr, hf, except_pure, success_response]
  cases t.completed <;> simp

lemma completeStep_found (u : String) (n : Int) (st : TaskStore) (t : Task)
    (hu : validate_user_id (.s u) = .ok none)
    (hdb : st.dbFail = false)
    (hf : st.tasks.find? (ownedBy n u) = some t) :
    (completeStep u n st).dbFail = false ∧
    (completeStep u n st).tasks.find? (ownedBy n u) =
      some { t with completed := !t.completed, updated_at := st.clock } := by
  have h := complete_task_found u n st t hu hdb hf
  constructor
  · simp [completeStep, h, hdb]
  · simp only [completeStep, h]
    exact find?_replaceFirst _ _ _ _ hf (ownedBy_update n u t _ _ (List.find?_some hf))

end Phase3

open Phase3 in
/-- C5: toggle involution. -/
theorem complete_toggle_involution (u : String) (n : Int) (st : TaskStore) (t : Task)
    (hu : validate_user_id (.s u) = .ok none)
    (hdb : st.dbFail = false)
    (hf : st.tasks.find? (ownedBy n u) = some t) :
    (complete_task (.s u) (.i n) st =
       .ok (.obj t.id (if t.completed then "incomplete" else "completed") t.title,
            completeStep u n st)) ∧
    ((completeStep u n st).tasks.find? (ownedBy n u) =
       some { t with completed := !t.completed, updated_at := st.clock }) ∧
    (complete_task (.s u) (.i n) (completeStep u n st) =
       .ok (.obj t.id (if t.completed then "completed" else "incomplete") t.title,
            completeStep u n (completeStep u n st))) ∧
    (∃ t2, (completeStep u n (completeStep u n st)).tasks.find? (ownedBy n u) = some t2 ∧
       t2.completed = t.completed) ∧
    (∀ k : Nat, ∃ t3, ((completeStep u n)^[2 * k] st).tasks.find? (ownedBy n u) = some t3 ∧
       t3.completed = t.completed) := by
  have key : ∀ (s : TaskStore) (t1 : Task), s.dbFail = false →
      s.tasks.find? (ownedBy n u) = some t1 →
      complete_task (.s u) (.i n) s =
        .ok (.obj t1.id (if t1.completed then "incomplete" else "completed") t1.title,
             completeStep u n s) := by
    intro s t1 hdb1 hf1
    have h := complete_task_found u n s t1 hu hdb1 hf1
    rw [h]
    simp [completeStep, h]
  have s1 := completeStep_found u n st t hu hdb hf
  have s2 := completeStep_found u n _ _ hu s1.1 s1.2
  have h2 := key _ _ s1.1 s1.2
  refine ⟨key st t hdb hf, s1.2, ?_, ⟨_, s2.2, by simp⟩, ?_⟩
  · cases hc : t.completed <;> simpa [hc] using h2
  · intro k
    have iter : ∀ j : Nat, ∃ t3,
        ((completeStep u n)^[2 * j] st).tasks.find? (ownedBy n u) = some t3 ∧
        t3.completed = t.completed ∧ ((completeStep u n)^[2 * j] st).dbFail = false := by
      intro j
      induction j with
      | zero => exact ⟨t, by simpa using hf, rfl, by simpa using hdb⟩
      | succ j ih =>
        obtain ⟨t3, hft3, hcomp, hdbf⟩ := ih
        have u1 := completeStep_found u n _ _ hu hdbf hft3
        have u2 := completeStep_found u n _ _ hu u1.1 u1.2
        have hrw : (completeStep u n)^[2 * (j + 1)] st =
            completeStep u n (completeStep u n ((completeStep u n)^[2 * j] st)) := by
          have h21 : 2 * (j + 1) = (2 * j) + 1 + 1 := by ring
          rw [h21, Function.iterate_succ_apply', Function.iterate_succ_apply']
        rw [hrw]
        exact ⟨_, u2.2, by simp [hcomp], u2.1⟩
    obtain ⟨t3, ha, hb, _⟩ := iter k
    exact ⟨t3, ha, hb⟩

/-- C5 (witness). -/
theorem complete_toggle_involution_check :
    Phase3.complete_task (.s "alice") (.i 1) Phase3.sampleStore =
      .ok (.obj 1 "completed" "Buy milk", Phase3.completeStep "alice" 1 Phase3.sampleStore) ∧
    (∃ t3, ((Phase3.completeStep "alice" 1)^[4] Phase3.sampleStore).tasks.find?
        (Phase3.ownedBy 1 "alice") = some t3 ∧ t3.completed = false) := by
  have h := complete_toggle_involution "alice" 1 Phase3.sampleStore
    ⟨1, "alice", "Buy milk", none, false, 0, 0⟩ rfl rfl rfl
  exact ⟨by simpa using h.1, by simpa using h.2.2.2.2 2⟩
namespace Phase3

lemma ownedBy_id {n : Int} {u : String} {t : Task} (h : ownedBy n u t = true) :
    (t.id : Int) = n := by
  simp [ownedBy] at h
  exact h.1

lemma find?_removeFirst_none {n : Int} {u : String} (l : List Task) (t : Task)
    (hpw : l.Pairwise (fun a b => a.id < b.id))
    (hf : l.find? (ownedBy n u) = some t) :
    (removeFirst (ownedBy n u) l).find? (ownedBy n u) = none := by
  induction l with
  | nil => simp [List.find?] at hf
  | cons hd tl ih =>
    rw [List.pairwise_cons] at hpw
    by_cases h : ownedBy n u hd
    · simp only [removeFirst, h, ite_true]
      rw [List.find?_eq_none]
      intro x hx hpx
      have h1 : (hd.id : Int) = n := ownedBy_id h
      have h2 : (x.id : Int) = n := ownedBy_id hpx
      have h3 := hpw.1 x hx
      omega
    · simp only [removeFirst, h, ite_false, Bool.false_eq_true, if_neg]
      rw [List.find?_cons_of_neg _ (by simpa using h)]
      exact ih hpw.2 (by rwa [List.find?_cons_of_neg _ (by simpa using h)] at hf)

end Phase3

open Phase3 in
/-- C6: delete is not idempotent. -/
theorem delete_not_idempotent (u : String) (n : Int) (st : TaskStore) (t : Task)
    (hu : validate_user_id (.s u) = .ok none)
    (hdb : st.dbFail = false)
    (hwf : st.wf)
    (hf : st.tasks.find? (ownedBy n u) = some t) :
    (delete_task (.s u) (.i n) st =
       .ok (.obj t.id "deleted" t.title,
            { st with tasks := removeFirst (ownedBy n u) st.tasks })) ∧
    ((removeFirst (ownedBy n u) st.tasks).find? (ownedBy n u) = none) ∧
    (delete_task (.s u) (.i n) { st with tasks := removeFirst (ownedBy n u) st.tasks } =
       .ok (.err "task not found",
            { st with tasks := removeFirst (ownedBy n u) st.tasks })) := by
  have hnone := find?_removeFirst_none st.tasks t (hwf.1.imp (fun h => h.1)) hf
  refine ⟨?_, hnone, ?_⟩
  · simp [delete_task, hu, except_bind_ok, validate_task_id, hdb, JVal.asStr, hf,
      except_pure, success_response]
  · simp [delete_task, hu, except_bind_ok, validate_task_id, hdb, JVal.asStr, hnone,
      except_pure, error_response]

/-- C6 (witness). -/
theorem delete_not_idempotent_check :
    Phase3.delete_task (.s "alice") (.i 1) Phase3.sampleStore =
      .ok (.obj 1 "deleted" "Buy milk",
           { Phase3.sampleStore with
               tasks := Phase3.removeFirst (Phase3.ownedBy 1 "alice")
                 Phase3.sampleStore.tasks }) ∧
    Phase3.delete_task (.s "alice") (.i 1)
        { Phase3.sampleStore with
            tasks := Phase3.removeFirst (Phase3.ownedBy 1 "alice") Phase3.sampleStore.tasks } =
      .ok (.err "task not found",
           { Phase3.sampleStore with
               tasks := Phase3.removeFirst (Phase3.ownedBy 1 "alice")
                 Phase3.sampleStore.tasks }) := by
  have h := delete_not_idempotent "alice" 1 Phase3.sampleStore
    ⟨1, "alice", "Buy milk", none, false, 0, 0⟩ rfl rfl ⟨by decide, by decide⟩ rfl
  exact ⟨h.1, h.2.2⟩
namespace Phase3

lemma mem_id_eq {l : List Task} (hpw : l.Pairwise (fun a b => a.id < b.id)) :
    ∀ {a b : Task}, a ∈ l → b ∈ l → a.id = b.id → a = b := by
  induction l with
  | nil => intro a b ha; simp at ha
  | cons hd tl ih =>
    rw [List.pairwise_cons] at hpw
    intro a b ha hb heq
    rcases List.mem_cons.mp ha with rfl | ha'
    · rcases List.mem_cons.mp hb with rfl | hb'
      · rfl
      · have := hpw.1 b hb'
        exact absurd heq (by omega)
    · rcases List.mem_cons.mp hb with rfl | hb'
      · have := hpw.1 a ha'
        exact absurd heq (by omega)
      · exact ih hpw.2 ha' hb' heq

lemma find?_other_owner_none {A B : String} {t : Task} {st : TaskStore}
    (hwf : st.wf) (ht : t ∈ st.tasks) (hA : t.user_id = A) (hAB : A ≠ B) :
    st.tasks.find? (ownedBy (t.id : Int) B) = none := by
  rw [List.find?_eq_none]
  intro x hx hpx
  simp [ownedBy] at hpx
  have hid : x.id = t.id := by exact_mod_cast hpx.1
  have hxt : x = t := mem_id_eq (hwf.1.imp fun h => h.1) hx ht hid
  rw [hxt, hA] at hpx
  exact hAB hpx.2

lemma complete_task_not_found (u : String) (n : Int) (st : TaskStore)
    (hu : validate_user_id (.s u) = .ok none) (hdb : st.dbFail = false)
    (hnone : st.tasks.find? (ownedBy n u) = none) :
    complete_task (.s u) (.i n) st = .ok (.err "task not found", st) := by
  simp [complete_task, hu, except_bind_ok, validate_task_id, hdb, JVal.asStr, hnone,
    except_pure, error_response]

lemma delete_task_not_found (u : String) (n : Int) (st : TaskStore)
    (hu : validate_user_id (.s u) = .ok none) (hdb : st.dbFail = false)
    (hnone : st.tasks.find? (ownedBy n u) = none) :
    delete_task (.s u) (.i n) st = .ok (.err "task not found", st) := by
  simp [delete_task, hu, except_bind_ok, validate_task_id, hdb, JVal.asStr, hnone,
    except_pure, error_response]

lemma update_task_not_found (u : String) (n : Int) (d : String) (st : TaskStore)
    (hu : validate_user_id (.s u) = .ok none) (hdb : st.dbFail = false)
    (hnone : st.tasks.find? (ownedBy n u) = none) :
    update_task (.s u) (.i n) .null (.s d) st = .ok (.err "task not found", st) := by
  simp [update_task, hu, except_bind_ok, validate_task_id, hdb, JVal.asStr, hnone,
    except_pure, error_response]

lemma mem_insertDescBy {α : Type} (key : α → Nat) (y x : α) (l : List α) :
    y ∈ insertDescBy key x l ↔ y = x ∨ y ∈ l := by
  induction l with
  | nil => simp [insertDescBy]
  | cons hd tl ih =>
    by_cases h : key x ≤ key hd
    · simp [insertDescBy, h, ih]
      tauto
    · simp [insertDescBy, h]

lemma mem_sortDescBy {α : Type} (key : α → Nat) (x : α) (l : List α) :
    x ∈ sortDescBy key l ↔ x ∈ l := by
  induction l with
  | nil => simp [sortDescBy]
  | cons hd tl ih => simp [sortDescBy, mem_insertDescBy, ih]

lemma mem_queryTasks {u : String} {status : JVal} {n : Int} {l : List Task} {v : TaskView}
    (hv : v ∈ queryTasks u status n l) : ∃ x ∈ l, x.user_id = u ∧ v = x.toView := by
  simp only [queryTasks] at hv
  obtain ⟨x, hx, rfl⟩ := List.mem_map.mp hv
  have hx2 := List.mem_of_mem_take hx
  rw [mem_sortDescBy] at hx2
  split at hx2
  · exact ⟨x, (List.mem_filter.mp (List.mem_filter.mp hx2).1).1,
      of_decide_eq_true (List.mem_filter.mp (List.mem_filter.mp hx2).1).2, rfl⟩
  · split at hx2
    · exact ⟨x, (List.mem_filter.mp (List.mem_filter.mp hx2).1).1,
        of_decide_eq_true (List.mem_filter.mp (List.mem_filter.mp hx2).1).2, rfl⟩
    · exact ⟨x, (List.mem_filter.mp hx2).1, of_decide_eq_true (List.mem_filter.mp hx2).2, rfl⟩

lemma validate_status_some {status : JVal} {e : ToolResult}
    (hvs : validate_status status = some e) :
    e = error_response "status must be \x27all\x27, \x27pending\x27, or \x27completed\x27" := by
  unfold validate_status at hvs
  split at hvs
  · exact absurd hvs (by simp)
  · split at hvs
    · exact absurd hvs (by simp)
    · injection hvs with h
      exact h.symm

lemma list_tasks_arr_mem (u : String) (status limit : JVal) (st : TaskStore)
    (vs : List TaskView) (st' : TaskStore)
    (hu : validate_user_id (.s u) = .ok none)
    (heq : list_tasks (.s u) status limit st = .ok (.arr vs, st')) :
    ∀ v ∈ vs, ∃ x ∈ st.tasks, x.user_id = u ∧ v = x.toView := by
  simp only [list_tasks, hu, except_bind_ok, JVal.asStr] at heq
  cases hvs : validate_status status with
  | some e =>
    rw [hvs, validate_status_some hvs] at heq
    simp [except_pure, error_response] at heq
  | none =>
    rw [hvs] at heq
    cases limit with
    | s sv => simp at heq
    | null =>
      by_cases hm : (100 : Int) < 1
      · norm_num at hm
      · cases hdb2 : st.dbFail with
        | true => simp [hm, hdb2, except_pure, error_response] at heq
        | false =>
          simp [hm, hdb2, except_pure] at heq
          intro v hv
          exact mem_queryTasks (heq.1 ▸ hv)
    | i m =>
      by_cases hm : m < 1
      · simp [hm, except_pure, error_response] at heq
      · cases hdb2 : st.dbFail with
        | true => simp [hm, hdb2, except_pure, error_response] at heq
        | false =>
          simp [hm, hdb2, except_pure] at heq
          intro v hv
          exact mem_queryTasks (heq.1 ▸ hv)
    | b bv =>
      cases bv with
      | false => simp [except_pure, error_response] at heq
      | true =>
        by_cases hm : (1 : Int) < 1
        · norm_num at hm
        · cases hdb2 : st.dbFail with
          | true => simp [hm, hdb2, except_pure, error_response] at heq
          | false =>
            simp [hm, hdb2, except_pure] at heq
            intro v hv
            exact mem_queryTasks (heq.1 ▸ hv)

end Phase3

namespace Phase3

lemma setKey_setKey (args : List (String × JVal)) (k : String) (v w : JVal) :
    setKey (setKey args k v) k w = setKey args k w := by
  induction args with
  | nil => simp [setKey]
  | cons kv rest ih =>
    obtain ⟨k1, v1⟩ := kv
    by_cases h : k1 = k
    · simp [setKey, h]
    · simp [setKey, h, ih]

lemma invokeTool_overrides_user_id (name uid : String) (args : List (String × JVal))
    (w : JVal) (st : TaskStore) :
    invokeTool name uid (setKey args "user_id" w) st = invokeTool name uid args st := by
  simp only [invokeTool, setKey_setKey]

end Phase3

open Phase3 in
/-- C1: cross-owner isolation. -/
theorem cross_owner_isolation (A B : String) (st : TaskStore) (t : Task)
    (hB : validate_user_id (.s B) = .ok none)
    (hAB : A ≠ B)
    (hwf : st.wf)
    (hdb : st.dbFail = false)
    (ht : t ∈ st.tasks)
    (hA : t.user_id = A) :
    (∀ (status limit : JVal) (vs : List TaskView) (st' : TaskStore),
       list_tasks (.s B) status limit st = .ok (.arr vs, st') →
       ∀ v ∈ vs, v.id ≠ t.id) ∧
    (complete_task (.s B) (.i (t.id : Int)) st = .ok (.err "task not found", st)) ∧
    (∀ d : String, update_task (.s B) (.i (t.id : Int)) .null (.s d) st =
       .ok (.err "task not found", st)) ∧
    (delete_task (.s B) (.i (t.id : Int)) st = .ok (.err "task not found", st)) ∧
    (∀ (name uid : String) (args : List (String × JVal)) (w : JVal) (st0 : TaskStore),
       invokeTool name uid (setKey args "user_id" w) st0 = invokeTool name uid args st0) := by
  have hnone := find?_other_owner_none hwf ht hA hAB
  refine ⟨?_, complete_task_not_found B _ st hB hdb hnone,
    fun d => update_task_not_found B _ d st hB hdb hnone,
    delete_task_not_found B _ st hB hdb hnone,
    invokeTool_overrides_user_id⟩
  intro status limit vs st' heq v hv hvid
  obtain ⟨x, hx, hxu, hxv⟩ := list_tasks_arr_mem B status limit st vs st' hB heq v hv
  have hxid : x.id = t.id := by rw [hxv] at hvid; exact hvid
  have hxt : x = t := mem_id_eq (hwf.1.imp fun h => h.1) hx ht hxid
  rw [hxt, hA] at hxu
  exact hAB hxu

/-- C1 (witness): owner bob can neither see nor mutate the task of alice,
and the loop overrides a model-supplied user id. -/
theorem cross_owner_isolation_check :
    Phase3.complete_task (.s "bob") (.i 1) Phase3.sampleStore =
      .ok (.err "task not found", Phase3.sampleStore) ∧
    Phase3.update_task (.s "bob") (.i 1) .null (.s "d") Phase3.sampleStore =
      .ok (.err "task not found", Phase3.sampleStore) ∧
    Phase3.delete_task (.s "bob") (.i 1) Phase3.sampleStore =
      .ok (.err "task not found", Phase3.sampleStore) ∧
    Phase3.invokeTool "add_task" "bob"
        (Phase3.setKey [("title", .s "x")] "user_id" (.s "alice")) Phase3.emptyStore =
      Phase3.invokeTool "add_task" "bob" [("title", .s "x")] Phase3.emptyStore := by
  have h := cross_owner_isolation "alice" "bob" Phase3.sampleStore
    ⟨1, "alice", "Buy milk", none, false, 0, 0⟩ rfl (by decide) ⟨by decide, by decide⟩
    rfl (by decide) rfl
  exact ⟨h.2.1, h.2.2.1 "d", h.2.2.2.1, h.2.2.2.2 "add_task" "bob" [("title", .s "x")]
    (.s "alice") Phase3.emptyStore⟩
namespace Phase3

lemma sortDescBy_append_newest {α : Type} (key : α → Nat) (x : α) (l : List α)
    (h : ∀ y ∈ l, key y < key x) :
    sortDescBy key (l ++ [x]) = x :: sortDescBy key l := by
  induction l with
  | nil => simp [sortDescBy, insertDescBy]
  | cons hd tl ih =>
    have hhd := h hd (by simp)
    have htl : ∀ y ∈ tl, key y < key x := fun y hy => h y (by simp [hy])
    rw [List.cons_append]
    simp only [sortDescBy]
    rw [ih htl]
    simp [insertDescBy, Nat.le_of_lt hhd]

lemma validate_title_ok {v : String} (hne : pyStrip v ≠ "") (hlen : v.length ≤ 500) :
    validate_title (.s v) = .ok none := by
  have h2 : ¬ (v.length > 500) := by omega
  simp [validate_title, JVal.truthy, hne, h2]

lemma add_task_success (u title : String) (dv : JVal) (st : TaskStore)
    (hu : validate_user_id (.s u) = .ok none)
    (hti : validate_title (.s title) = .ok none)
    (hdb : st.dbFail = false)
    (hd : dv = .null ∨ ∃ s, dv = .s s) :
    ∃ desc : Option String,
      add_task (.s u) (.s title) dv st =
        .ok (.obj st.next_id "created" (pyStrip title),
             { st with
                 tasks := st.tasks ++
                   [⟨st.next_id, u, pyStrip title, desc, false, st.clock, st.clock⟩],
                 next_id := st.next_id + 1, clock := st.clock + 1 }) := by
  rcases hd with rfl | ⟨s, rfl⟩
  · exact ⟨none, by
      simp [add_task, hu, hti, except_bind_ok, except_pure, hdb, JVal.asStr,
        success_response]⟩
  · exact ⟨some s, by
      simp [add_task, hu, hti, except_bind_ok, except_pure, hdb, JVal.asStr,
        success_response]⟩

lemma list_tasks_all_success (u : String) (st : TaskStore)
    (hu : validate_user_id (.s u) = .ok none) (hdb : st.dbFail = false) :
    list_tasks (.s u) (.s "all") (.i 100) st =
      .ok (.arr (queryTasks u (.s "all") 100 st.tasks), st) := by
  have h1 : ¬ ((100 : Int) < 1) := by norm_num
  have h2 : ¬ ((100 : Int) > 1000) := by norm_num
  simp [list_tasks, hu, except_bind_ok, validate_status, except_pure, hdb, JVal.asStr, h1, h2]

lemma queryTasks_all_after_add (u : String) (newT : Task) (l : List Task)
    (hnu : newT.user_id = u)
    (hnew : ∀ y ∈ l, y.created_at < newT.created_at) :
    queryTasks u (.s "all") 100 (l ++ [newT]) =
      newT.toView ::
        ((sortDescBy Task.created_at (l.filter (fun t => t.user_id = u))).take 99).map
          Task.toView := by
  simp only [queryTasks]
  rw [if_neg (by decide : ¬ (JVal.s "all" = JVal.s "pending")),
      if_neg (by decide : ¬ (JVal.s "all" = JVal.s "completed")),
      List.filter_append]
  have hf : List.filter (fun t => decide (t.user_id = u)) [newT] = [newT] := by
    simp [hnu]
  rw [hf, sortDescBy_append_newest Task.created_at newT _
    (fun y hy => hnew y (List.mem_filter.mp hy).1)]
  rfl

end Phase3

open Phase3 in
/-- C7: add/list round trip. -/
theorem add_list_round_trip (u title : String) (dv : JVal) (st : TaskStore)
    (hu : validate_user_id (.s u) = .ok none)
    (hwf : st.wf)
    (hdb : st.dbFail = false)
    (hne : pyStrip title ≠ "")
    (hlen : title.length ≤ 500)
    (hd : dv = .null ∨ ∃ s, dv = .s s) :
    ∃ (desc : Option String) (st1 : TaskStore) (vs vs0 : List TaskView),
      add_task (.s u) (.s title) dv st =
        .ok (.obj st.next_id "created" (pyStrip title), st1) ∧
      st1.tasks = st.tasks ++
        [⟨st.next_id, u, pyStrip title, desc, false, st.clock, st.clock⟩] ∧
      list_tasks (.s u) (.s "all") (.i 100) st1 = .ok (.arr vs, st1) ∧
      vs.countP (fun v => v.id == st.next_id) = 1 ∧
      (∀ v ∈ vs, v.id = st.next_id → v.title = pyStrip title) ∧
      list_tasks (.s u) (.s "all") (.i 100) st = .ok (.arr vs0, st) ∧
      (∀ v ∈ vs0, v.id ≠ st.next_id) := by
  obtain ⟨desc, hadd⟩ := add_task_success u title dv st hu (validate_title_ok hne hlen) hdb hd
  refine ⟨desc,
    { st with
        tasks := st.tasks ++ [⟨st.next_id, u, pyStrip title, desc, false, st.clock, st.clock⟩],
        next_id := st.next_id + 1, clock := st.clock + 1 },
    _, _, hadd, rfl, list_tasks_all_success u _ hu hdb, ?_, ?_,
    list_tasks_all_success u st hu hdb, ?_⟩
  all_goals
    have hq := queryTasks_all_after_add u
      ⟨st.next_id, u, pyStrip title, desc, false, st.clock, st.clock⟩ st.tasks rfl
      (fun y hy => (hwf.2 y hy).2)
  · rw [hq, List.countP_cons]
    have hzero : (((sortDescBy Task.created_at
        (st.tasks.filter (fun t => t.user_id = u))).take 99).map Task.toView).countP
          (fun v => v.id == st.next_id) = 0 := by
      rw [List.countP_eq_zero]
      intro w hw
      obtain ⟨y, hy, rfl⟩ := List.mem_map.mp hw
      have hyy : y ∈ st.tasks :=
        (List.mem_filter.mp ((mem_sortDescBy _ _ _).mp (List.mem_of_mem_take hy))).1
      have hid := (hwf.2 y hyy).1
      simp [Task.toView]
      omega
    rw [hzero]
    simp [Task.toView]
  · intro v hv hvid
    rw [hq] at hv
    rcases List.mem_cons.mp hv with rfl | hv'
    · simp [Task.toView]
    · obtain ⟨y, hy, rfl⟩ := List.mem_map.mp hv'
      have hyy : y ∈ st.tasks :=
        (List.mem_filter.mp ((mem_sortDescBy _ _ _).mp (List.mem_of_mem_take hy))).1
      have hid := (hwf.2 y hyy).1
      simp [Task.toView] at hvid
      omega
  · intro v hv
    obtain ⟨x, hx, hxu, rfl⟩ := mem_queryTasks hv
    have hid := (hwf.2 x hx).1
    simp [Task.toView]
    omega

/-- C7 (witness): add then list on a concrete store. -/
theorem add_list_round_trip_check :
    ∃ (desc : Option String) (st1 : Phase3.TaskStore)
      (vs vs0 : List Phase3.TaskView),
      Phase3.add_task (.s "alice") (.s " Buy bread ") .null Phase3.sampleStore =
        .ok (.obj 2 "created" "Buy bread", st1) ∧
      st1.tasks = Phase3.sampleStore.tasks ++
        [⟨2, "alice", "Buy bread", desc, false, 1, 1⟩] ∧
      Phase3.list_tasks (.s "alice") (.s "all") (.i 100) st1 = .ok (.arr vs, st1) ∧
      vs.countP (fun v => v.id == 2) = 1 ∧
      (∀ v ∈ vs, v.id = 2 → v.title = "Buy bread") ∧
      Phase3.list_tasks (.s "alice") (.s "all") (.i 100) Phase3.sampleStore =
        .ok (.arr vs0, Phase3.sampleStore) ∧
      (∀ v ∈ vs0, v.id ≠ 2) := by
  have h := add_list_round_trip "alice" " Buy bread " .null Phase3.sampleStore
    rfl ⟨by decide, by decide⟩ rfl (by decide) (by decide) (Or.inl rfl)
  simpa using h
namespace Phase3

lemma lookup_setKey_self (args : List (String × JVal)) (k : String) (v : JVal) :
    List.lookup k (setKey args k v) = some v := by
  induction args with
  | nil => simp [setKey, List.lookup]
  | cons kv rest ih =>
    obtain ⟨k1, v1⟩ := kv
    by_cases h : k1 = k
    · simp [setKey, h, List.lookup]
    · have hb : (k == k1) = false := beq_eq_false_iff_ne.mpr (Ne.symm h)
      simp [setKey, h, List.lookup, hb, ih]

lemma lookup_setKey_ne (args : List (String × JVal)) (k k0 : String) (v : JVal)
    (h : k ≠ k0) : List.lookup k (setKey args k0 v) = List.lookup k args := by
  have hb : (k == k0) = false := beq_eq_false_iff_ne.mpr h
  induction args with
  | nil => simp [setKey, List.lookup, hb]
  | cons kv rest ih =>
    obtain ⟨k1, v1⟩ := kv
    by_cases h1 : k1 = k0
    · subst h1
      simp [setKey, List.lookup, hb]
    · by_cases h2 : k = k1
      · subst h2
        simp [setKey, h1, List.lookup]
      · have hb2 : (k == k1) = false := beq_eq_false_iff_ne.mpr h2
        simp [setKey, h1, List.lookup, hb2, ih]

lemma all_setKey {P : String × JVal → Bool} (args : List (String × JVal)) (k : String)
    (v : JVal) (hP : P (k, v) = true) (h : args.all P = true) :
    (setKey args k v).all P = true := by
  induction args with
  | nil => simp [setKey, hP]
  | cons kv rest ih =>
    obtain ⟨k1, v1⟩ := kv
    rw [List.all_cons, Bool.and_eq_true] at h
    by_cases h1 : k1 = k
    · simp [setKey, h1, hP, h.2]
    · simp [setKey, h1, h.1, ih h.2]

lemma validate_user_id_str_total (u : String) :
    ∃ o, validate_user_id (.s u) = .ok o := by
  simp only [validate_user_id]
  by_cases h : (JVal.s u).truthy
  · by_cases h2 : (JVal.s (pyStrip u)).truthy <;> simp [h, h2]
  · simp [h]

lemma validate_title_total {v : JVal} (h : isStrOrNull v = true) :
    ∃ o, validate_title v = .ok o := by
  cases v with
  | s sv =>
    simp only [validate_title]
    by_cases h1 : (JVal.s (pyStrip sv)).truthy
    · by_cases h2 : sv.length > 500 <;> simp [h1, h2]
    · simp [h1]
  | null => exact ⟨_, rfl⟩
  | i m => simp [isStrOrNull] at h
  | b bv => simp [isStrOrNull] at h

lemma add_task_total (u : String) (title desc : JVal) (st : TaskStore)
    (ht : isStrOrNull title = true) :
    ∃ r, add_task (.s u) title desc st = .ok r := by
  obtain ⟨o, ho⟩ := validate_user_id_str_total u
  obtain ⟨o2, ho2⟩ := validate_title_total ht
  simp only [add_task, ho, except_bind_ok]
  cases o with
  | some e => exact ⟨_, rfl⟩
  | none =>
    simp only [ho2, except_bind_ok]
    cases o2 with
    | some e => exact ⟨_, rfl⟩
    | none =>
      by_cases hdb : st.dbFail
      · simp only [hdb, ite_true, if_pos]
        exact ⟨_, rfl⟩
      · simp only [hdb, ite_false, if_neg, Bool.false_eq_true]
        cases desc <;> exact ⟨_, rfl⟩

lemma list_tasks_total (u : String) (status limit : JVal) (st : TaskStore)
    (hl : isStrVal limit = false) :
    ∃ r, list_tasks (.s u) status limit st = .ok r := by
  obtain ⟨o, ho⟩ := validate_user_id_str_total u
  simp only [list_tasks, ho, except_bind_ok]
  cases o with
  | some e => exact ⟨_, rfl⟩
  | none =>
    cases hvs : validate_status status with
    | some e => exact ⟨_, rfl⟩
    | none =>
      have hn : ∃ n : Int, (match limit with
          | .null => Except.ok (100 : Int)
          | .i n => Except.ok n
          | .b v => Except.ok (if v then (1 : Int) else 0)
          | .s _ => Except.error PyExn.typeError) = Except.ok n := by
        cases limit with
        | s sv => simp [isStrVal] at hl
        | null => exact ⟨100, rfl⟩
        | i m => exact ⟨m, rfl⟩
        | b bv => exact ⟨_, rfl⟩
      obtain ⟨n, hn⟩ := hn
      rw [hn]
      by_cases h1 : n < 1
      · simp only [h1, ite_true, if_pos]
        exact ⟨_, rfl⟩
      · simp only [h1, ite_false, if_neg]
        by_cases hdb : st.dbFail
        · simp only [hdb, ite_true, if_pos]
          exact ⟨_, rfl⟩
        · simp only [hdb, ite_false, if_neg, Bool.false_eq_true]
          exact ⟨_, rfl⟩

lemma complete_task_total (u : String) (task_id : JVal) (st : TaskStore) :
    ∃ r, complete_task (.s u) task_id st = .ok r := by
  obtain ⟨o, ho⟩ := validate_user_id_str_total u
  simp only [complete_task, ho, except_bind_ok]
  cases o with
  | some e => exact ⟨_, rfl⟩
  | none =>
    cases hvt : validate_task_id task_id with
    | some e => exact ⟨_, rfl⟩
    | none =>
      by_cases hdb : st.dbFail
      · simp only [hdb, ite_true, if_pos]
        exact ⟨_, rfl⟩
      · simp only [hdb, ite_false, if_neg, Bool.false_eq_true]
        cases task_id with
        | s sv => exact ⟨_, rfl⟩
        | null => exact ⟨_, rfl⟩
        | i m =>
          dsimp only
          cases st.tasks.find? (ownedBy m (JVal.s u).asStr) with
          | none => exact ⟨_, rfl⟩
          | some task => exact ⟨_, rfl⟩
        | b bv =>
          cases bv with
          | false =>
            dsimp only
            cases st.tasks.find?
                (ownedBy (if false = true then 1 else 0) (JVal.s u).asStr) with
            | none => exact ⟨_, rfl⟩
            | some task => exact ⟨_, rfl⟩
          | true =>
            dsimp only
            cases st.tasks.find?
                (ownedBy (if true = true then 1 else 0) (JVal.s u).asStr) with
            | none => exact ⟨_, rfl⟩
            | some task => exact ⟨_, rfl⟩

lemma delete_task_total (u : String) (task_id : JVal) (st : TaskStore) :
    ∃ r, delete_task (.s u) task_id st = .ok r := by
  obtain ⟨o, ho⟩ := validate_user_id_str_total u
  simp only [delete_task, ho, except_bind_ok]
  cases o with
  | some e => exact ⟨_, rfl⟩
  | none =>
    cases hvt : validate_task_id task_id with
    | some e => exact ⟨_, rfl⟩
    | none =>
      by_cases hdb : st.dbFail
      · simp only [hdb, ite_true, if_pos]
        exact ⟨_, rfl⟩
      · simp only [hdb, ite_false, if_neg, Bool.false_eq_true]
        cases task_id with
        | s sv => exact ⟨_, rfl⟩
        | null => exact ⟨_, rfl⟩
        | i m =>
          dsimp only
          cases st.tasks.find? (ownedBy m (JVal.s u).asStr) with
          | none => exact ⟨_, rfl⟩
          | some task => exact ⟨_, rfl⟩
        | b bv =>
          cases bv with
          | false =>
            dsimp only
            cases st.tasks.find?
                (ownedBy (if false = true then 1 else 0) (JVal.s u).asStr) with
            | none => exact ⟨_, rfl⟩
            | some task => exact ⟨_, rfl⟩
          | true =>
            dsimp only
            cases st.tasks.find?
                (ownedBy (if true = true then 1 else 0) (JVal.s u).asStr) with
            | none => exact ⟨_, rfl⟩
            | some task => exact ⟨_, rfl⟩

lemma update_task_total (u : String) (task_id title desc : JVal) (st : TaskStore)
    (ht : isStrOrNull title = true) :
    ∃ r, update_task (.s u) task_id title desc st = .ok r := by
  obtain ⟨o, ho⟩ := validate_user_id_str_total u
  simp only [update_task, ho, except_bind_ok]
  cases o with
  | some e => exact ⟨_, rfl⟩
  | none =>
    cases hvt : validate_task_id task_id with
    | some e => exact ⟨_, rfl⟩
    | none =>
      by_cases hboth : title = JVal.null ∧ desc = JVal.null
      · simp only [hboth, ite_true, if_pos]
        exact ⟨_, rfl⟩
      · simp only [hboth, ite_false, if_neg]
        have hv : ∃ o2, (if title ≠ JVal.null then validate_title title
            else Except.ok none) = Except.ok o2 := by
          by_cases hnull : title = JVal.null
          · simp [hnull]
          · simpa [hnull] using validate_title_total ht
        obtain ⟨o2, ho2⟩ := hv
        rw [ho2, except_bind_ok]
        cases o2 with
        | some e => exact ⟨_, rfl⟩
        | none =>
          by_cases hdb : st.dbFail
          · simp only [hdb, ite_true, if_pos]
            exact ⟨_, rfl⟩
          · simp only [hdb, ite_false, if_neg, Bool.false_eq_true]
            cases task_id with
            | s sv => exact ⟨_, rfl⟩
            | null => exact ⟨_, rfl⟩
            | i m =>
              dsimp only
              cases st.tasks.find? (ownedBy m (JVal.s u).asStr) with
              | none => exact ⟨_, rfl⟩
              | some task => cases desc <;> exact ⟨_, rfl⟩
            | b bv =>
              cases bv with
              | false =>
                dsimp only
                cases st.tasks.find?
                    (ownedBy (if false = true then 1 else 0) (JVal.s u).asStr) with
                | none => exact ⟨_, rfl⟩
                | some task => cases desc <;> exact ⟨_, rfl⟩
              | true =>
                dsimp only
                cases st.tasks.find?
                    (ownedBy (if true = true then 1 else 0) (JVal.s u).asStr) with
                | none => exact ⟨_, rfl⟩
                | some task => cases desc <;> exact ⟨_, rfl⟩

end Phase3

open Phase3 in
/-- C8 (amended): tool-boundary totality for well-shaped arguments, and
opacity of persistence failures. -/
theorem tool_boundary_totality :
    (∀ (name uid : String) (args : List (String × JVal)) (st : TaskStore),
       wellShapedArgs name args = true →
       ∃ r, invokeTool name uid args st = .ok r) ∧
    (∀ (u : String) (title desc : JVal) (st : TaskStore), st.dbFail = true →
       validate_user_id (.s u) = .ok none → validate_title title = .ok none →
       add_task (.s u) title desc st = .ok (.err "service unavailable", st)) ∧
    (∀ (u : String) (status : JVal) (n : Int) (st : TaskStore), st.dbFail = true →
       validate_user_id (.s u) = .ok none → validate_status status = none → ¬ (n < 1) →
       list_tasks (.s u) status (.i n) st = .ok (.err "service unavailable", st)) ∧
    (∀ (u : String) (n : Int) (st : TaskStore), st.dbFail = true →
       validate_user_id (.s u) = .ok none →
       complete_task (.s u) (.i n) st = .ok (.err "service unavailable", st)) ∧
    (∀ (u : String) (n : Int) (title : JVal) (st : TaskStore), st.dbFail = true →
       validate_user_id (.s u) = .ok none → validate_title title = .ok none →
       update_task (.s u) (.i n) title .null st = .ok (.err "service unavailable", st)) ∧
    (∀ (u : String) (n : Int) (st : TaskStore), st.dbFail = true →
       validate_user_id (.s u) = .ok none →
       delete_task (.s u) (.i n) st = .ok (.err "service unavailable", st)) := by
  refine ⟨?_, ?_, ?_, ?_, ?_, ?_⟩
  · intro name uid args st hws
    unfold wellShapedArgs at hws
    unfold invokeTool
    by_cases h1 : name = "add_task"
    · subst h1
      rw [if_pos rfl] at hws ⊢
      rw [Bool.and_eq_true] at hws
      rw [if_pos (all_setKey args "user_id" (.s uid) (by simp) hws.1)]
      rw [lookup_setKey_ne args "title" "user_id" _ (by decide)]
      cases hlt : List.lookup "title" args with
      | none =>
        rw [hlt] at hws
        simp at hws
      | some v =>
        rw [hlt] at hws
        rw [lookup_setKey_self, Option.getD_some]
        exact add_task_total uid v _ st hws.2
    · rw [if_neg h1] at hws ⊢
      by_cases h2 : name = "list_tasks"
      · subst h2
        rw [if_pos rfl] at hws ⊢
        rw [Bool.and_eq_true] at hws
        rw [if_pos (all_setKey args "user_id" (.s uid) (by simp) hws.1)]
        rw [lookup_setKey_self, Option.getD_some,
          lookup_setKey_ne args "status" "user_id" _ (by decide),
          lookup_setKey_ne args "limit" "user_id" _ (by decide)]
        cases hlt : List.lookup "limit" args with
        | none =>
          exact list_tasks_total uid _ _ st (by decide)
        | some v =>
          rw [hlt] at hws
          rw [Option.getD_some]
          exact list_tasks_total uid _ v st (by simpa using hws.2)
      · rw [if_neg h2] at hws ⊢
        by_cases h3 : name = "complete_task"
        · subst h3
          rw [if_pos rfl] at hws ⊢
          rw [Bool.and_eq_true] at hws
          rw [if_pos (all_setKey args "user_id" (.s uid) (by simp) hws.1)]
          rw [lookup_setKey_ne args "task_id" "user_id" _ (by decide)]
          obtain ⟨v, hv⟩ := Option.isSome_iff_exists.mp hws.2
          rw [hv, lookup_setKey_self, Option.getD_some]
          exact complete_task_total uid v st
        · rw [if_neg h3] at hws ⊢
          by_cases h4 : name = "update_task"
          · subst h4
            rw [if_pos rfl] at hws ⊢
            rw [Bool.and_eq_true, Bool.and_eq_true] at hws
            rw [if_pos (all_setKey args "user_id" (.s uid) (by simp) hws.1)]
            rw [lookup_setKey_ne args "task_id" "user_id" _ (by decide)]
            obtain ⟨v, hv⟩ := Option.isSome_iff_exists.mp hws.2.1
            rw [hv, lookup_setKey_self, Option.getD_some,
              lookup_setKey_ne args "title" "user_id" _ (by decide),
              lookup_setKey_ne args "description" "user_id" _ (by decide)]
            cases hlt : List.lookup "title" args with
            | none =>
              exact update_task_total uid v .null _ st (by decide)
            | some tv =>
              rw [hlt] at hws
              rw [Option.getD_some]
              exact update_task_total uid v tv _ st hws.2.2
          · rw [if_neg h4] at hws ⊢
            by_cases h5 : name = "delete_task"
            · subst h5
              rw [if_pos rfl] at hws ⊢
              rw [Bool.and_eq_true] at hws
              rw [if_pos (all_setKey args "user_id" (.s uid) (by simp) hws.1)]
              rw [lookup_setKey_ne args "task_id" "user_id" _ (by decide)]
              obtain ⟨v, hv⟩ := Option.isSome_iff_exists.mp hws.2
              rw [hv, lookup_setKey_self, Option.getD_some]
              exact delete_task_total uid v st
            · rw [if_neg h5]
              exact ⟨_, rfl⟩
  · intro u title desc st hdb hu hti
    simp [add_task, hu, hti, except_bind_ok, except_pure, hdb, error_response]
  · intro u status n st hdb hu hvs hn
    simp [list_tasks, hu, hvs, except_bind_ok, except_pure, hdb, hn, error_response]
  · intro u n st hdb hu
    simp [complete_task, hu, except_bind_ok, except_pure, hdb, validate_task_id,
      error_response]
  · intro u n title st hdb hu hti
    have hnn : title ≠ JVal.null := by
      intro h
      subst h
      simp [validate_title] at hti
    simp [update_task, hu, hti, except_bind_ok, except_pure, hdb, validate_task_id,
      hnn, error_response]
  · intro u n st hdb hu
    simp [delete_task, hu, except_bind_ok, except_pure, hdb, validate_task_id,
      error_response]

/-- C8 (counterexample): exceptions do cross the tool boundary for
arguments of the wrong shape supplied by the model: an unexpected keyword
raises `TypeError` before any tool body runs, and a numeric `title`
raises `AttributeError` inside the title validation, outside any
`try` block. -/
theorem tool_boundary_exceptions :
    Phase3.invokeTool "add_task" "u1" [("bogus", .null), ("title", .s "x")]
      Phase3.emptyStore = .error .typeError ∧
    Phase3.invokeTool "add_task" "u1" [("title", .i 5)] Phase3.emptyStore =
      .error .attributeError := ⟨rfl, rfl⟩

/-- C8 (witness): totality applied to a well-shaped call and an opaque
persistence failure at a concrete store. -/
theorem tool_boundary_totality_check :
    (∃ r, Phase3.invokeTool "add_task" "u1" [("title", .s "x")] Phase3.emptyStore = .ok r) ∧
    Phase3.add_task (.s "u1") (.s "x") .null
        { tasks := [], next_id := 1, clock := 0, dbFail := true } =
      .ok (.err "service unavailable",
           { tasks := [], next_id := 1, clock := 0, dbFail := true }) := by
  exact ⟨tool_boundary_totality.1 "add_task" "u1" [("title", .s "x")] Phase3.emptyStore
      (by decide),
    tool_boundary_totality.2.1 "u1" (.s "x") .null
      { tasks := [], next_id := 1, clock := 0, dbFail := true } rfl rfl rfl⟩
namespace Phase3

lemma execToolCalls_ok (uid : String) (calls : List ToolCallReq)
    (hok : ∀ tc ∈ calls, ∀ st' : TaskStore,
        ∃ r, invokeTool tc.name uid tc.arguments st' = .ok r) :
    ∀ (msgs : List PMsg) (st : TaskStore),
      ∃ ms' st', execToolCalls uid calls msgs st = .ok (ms', st') := by
  induction calls with
  | nil => intro msgs st; exact ⟨msgs, st, rfl⟩
  | cons tc rest ih =>
    intro msgs st
    obtain ⟨r, hr⟩ := hok tc (by simp) st
    obtain ⟨ms', st', hrec⟩ :=
      ih (fun c hc st2 => hok c (by simp [hc]) st2)
        (msgs ++ [.tool tc.id (jsonOfResult r.1)]) r.2
    refine ⟨ms', st', ?_⟩
    simp only [execToolCalls, hr, except_bind_ok]
    exact hrec

lemma agentIter_all_tools (stub : List PMsg → AssistantMessage) (uid : String)
    (hcalls : ∀ msgs, (stub msgs).tool_calls ≠ [])
    (hok : ∀ msgs st', ∀ tc ∈ (stub msgs).tool_calls,
        ∃ r, invokeTool tc.name uid tc.arguments st' = .ok r) :
    ∀ (fuel : Nat) (msgs : List PMsg) (st : TaskStore) (iter : Nat)
      (last : Option AssistantMessage),
      ∃ out : LoopOut, agentIter stub uid fuel msgs st iter last = .ok out ∧
        out.broke = false ∧ out.iteration = iter + fuel ∧
        (fuel = 0 → out.last = last) ∧ (fuel ≠ 0 → ∃ m, out.last = some (stub m)) := by
  intro fuel
  induction fuel with
  | zero =>
    intro msgs st iter last
    exact ⟨⟨last, false, iter, msgs, st⟩, rfl, rfl, rfl, fun _ => rfl, by simp⟩
  | succ fuel ih =>
    intro msgs st iter last
    have hne : (stub msgs).tool_calls.isEmpty = false := by
      cases h : (stub msgs).tool_calls with
      | nil => exact absurd h (hcalls msgs)
      | cons a l => rfl
    obtain ⟨ms', st', hexec⟩ := execToolCalls_ok uid (stub msgs).tool_calls
      (fun tc htc st2 => hok msgs st2 tc htc)
      (msgs ++ [.assistant (stub msgs).content (stub msgs).tool_calls]) st
    obtain ⟨out, hrec, hbroke, hiter, hz, hlast⟩ := ih ms' st' (iter + 1) (some (stub msgs))
    refine ⟨out, ?_, hbroke, by omega, fun h => absurd h (by omega), ?_⟩
    · simp only [agentIter, hne, Bool.false_eq_true, if_neg, ite_false, hexec,
        except_bind_ok]
      exact hrec
    · intro _
      by_cases hf : fuel = 0
      · subst hf
        exact ⟨msgs, hz rfl⟩
      · exact hlast hf

end Phase3

open Phase3 in
/-- C2 (amended): agent loop termination for tool-hungry stubs whose
calls all bind without raising. -/
theorem agent_loop_termination (stub : List PMsg → AssistantMessage) (uid : String)
    (history : List PMsg) (st : TaskStore)
    (hcalls : ∀ msgs, (stub msgs).tool_calls ≠ [])
    (hok : ∀ msgs st', ∀ tc ∈ (stub msgs).tool_calls,
        ∃ r, invokeTool tc.name uid tc.arguments st' = .ok r) :
    ∃ (s : String) (st' : TaskStore),
      generate_response stub uid history st = .ok (some s, st', max_iterations) ∧
      s ≠ "" ∧
      (s = generic_completion_message ∨ ∃ m, (stub m).content = some s) := by
  obtain ⟨out, hrun, hbroke, hiter, hz, hlast⟩ := agentIter_all_tools stub uid hcalls hok
    max_iterations (PMsg.system system_prompt :: history) st 0 none
  obtain ⟨m, hm⟩ := hlast (by decide)
  refine ⟨if pyTruthyOpt (stub m).content then (stub m).content.getD ""
      else generic_completion_message, out.store, ?_, ?_, ?_⟩
  · simp only [generate_response, hrun, except_bind_ok, hbroke, hm, hiter]
    simp [except_pure, max_iterations]
  · by_cases h : pyTruthyOpt (stub m).content
    · cases hc : (stub m).content with
      | none => rw [hc] at h; simp [pyTruthyOpt] at h
      | some sv =>
        rw [hc] at h
        simp only [pyTruthyOpt, decide_eq_true_eq] at h
        simp [hc, pyTruthyOpt, h]
    · simp only [h, ite_false, if_neg, Bool.false_eq_true]
      decide
  · by_cases h : pyTruthyOpt (stub m).content
    · right
      refine ⟨m, ?_⟩
      cases hc : (stub m).content with
      | none => rw [hc] at h; simp [pyTruthyOpt] at h
      | some sv =>
        rw [hc] at h
        simp only [pyTruthyOpt, decide_eq_true_eq] at h
        simp [hc, pyTruthyOpt, h]
    · left
      simp [h]

/-- C2 (counterexample): a model stub that always requests a tool call
but with a numeric `title` argument makes `generate_response` raise
(`AttributeError`) instead of returning text. -/
theorem agent_loop_raises_on_bad_args :
    (∀ msgs, (Phase3.stubBadArgs msgs).tool_calls ≠ []) ∧
    Phase3.generate_response Phase3.stubBadArgs "u1" [] Phase3.emptyStore =
      .error .attributeError := ⟨by intro msgs; simp [Phase3.stubBadArgs], rfl⟩

/-- C2 (witness): a stub that always requests one (unknown-tool) call
runs exactly five model round-trips and returns non-empty text. -/
theorem agent_loop_termination_check :
    (∀ msgs, (Phase3.stubUnknownTool msgs).tool_calls ≠ []) ∧
    (∃ (s : String) (st' : Phase3.TaskStore),
      Phase3.generate_response Phase3.stubUnknownTool "u1" [] Phase3.emptyStore =
        .ok (some s, st', Phase3.max_iterations) ∧ s ≠ "" ∧
      (s = Phase3.generic_completion_message ∨
        ∃ m, (Phase3.stubUnknownTool m).content = some s)) := by
  have h1 : ∀ msgs, (Phase3.stubUnknownTool msgs).tool_calls ≠ [] := by
    intro msgs
    simp [Phase3.stubUnknownTool]
  have h2 : ∀ msgs st', ∀ tc ∈ (Phase3.stubUnknownTool msgs).tool_calls,
      ∃ r, Phase3.invokeTool tc.name "u1" tc.arguments st' = .ok r := by
    intro msgs st' tc htc
    have heq : tc = ⟨"call-1", "do_nothing", []⟩ := by
      simpa [Phase3.stubUnknownTool] using htc
    subst heq
    exact ⟨_, rfl⟩
  exact ⟨h1, agent_loop_termination Phase3.stubUnknownTool "u1" [] Phase3.emptyStore h1 h2⟩
